import Mathlib

/-!
Verification of the SolarOracleWalkman / IVFakeChainOracle contract
(contracts embedded in `scripts/test-contract.js` of the repository).

The contract stores 7-dimensional "IV voiceprint" vectors after a
statistical validation (`validateIV7Data`), an admission pipeline
(`verifyAndStore`: freshness, duplicate, validation, oracle signature),
and offers a whole-ledger re-validation (`verifyChainIntegrity`) and a
lookup (`getRecord`).

Modelling conventions:
* `uint256` is embedded as `Nat`.  Solidity 0.8 arithmetic reverts on
  overflow instead of wrapping; on every path the contract executes, the
  values involved are bounded (elements that survive the range check are
  at most 3000, so sums are at most 21000 and squared deviations at most
  8 940 100), hence no overflow can occur and `Nat` is an exact model.
* `bytes32` values and addresses are opaque identifiers, embedded as `Nat`.
* Solidity mappings are total functions returning the zero value of the
  component type for keys never written, exactly as in the EVM.
* The cryptographic externals (EIP-712 digest + `ECDSA.recover`,
  `keccak256` for transaction ids) are abstracted as function fields of
  an `Env` record: the contract logic only compares their outputs.
-/

/-- A 7-element vector of scaled (×1000) measurements, `uint256[7]`. -/
structure IV7 where
  d0 : Nat
  d1 : Nat
  d2 : Nat
  d3 : Nat
  d4 : Nat
  d5 : Nat
  d6 : Nat
deriving DecidableEq

/-- `MIN_VALUE = 10` (0.01 × 1000). -/
def MIN_VALUE : Nat := 10

/-- `MAX_VALUE = 3000` (3.0 × 1000). -/
def MAX_VALUE : Nat := 3000

/-- `MIN_VARIANCE = 50` (0.05 × 1000). -/
def MIN_VARIANCE : Nat := 50

/-- `MAX_VARIANCE = 1200` (1.2 × 1000). -/
def MAX_VARIANCE : Nat := 1200

/-- `MAX_RANGE = 2500` (2.5 × 1000). -/
def MAX_RANGE : Nat := 2500

/-- `MAX_ALTERNATIONS = 3`. -/
def MAX_ALTERNATIONS : Nat := 3

/-- `MIN_UNIQUE_VALUES = 4`. -/
def MIN_UNIQUE_VALUES : Nat := 4

/-- The range-validation loop: some element is below `MIN_VALUE` or above
`MAX_VALUE` (`iv7Data[i] < MIN_VALUE || iv7Data[i] > MAX_VALUE`). -/
@[reducible] def outOfRange (v : IV7) : Prop :=
  v.d0 < MIN_VALUE ∨ v.d0 > MAX_VALUE ∨
  v.d1 < MIN_VALUE ∨ v.d1 > MAX_VALUE ∨
  v.d2 < MIN_VALUE ∨ v.d2 > MAX_VALUE ∨
  v.d3 < MIN_VALUE ∨ v.d3 > MAX_VALUE ∨
  v.d4 < MIN_VALUE ∨ v.d4 > MAX_VALUE ∨
  v.d5 < MIN_VALUE ∨ v.d5 > MAX_VALUE ∨
  v.d6 < MIN_VALUE ∨ v.d6 > MAX_VALUE

/-- The statistics loop: `sum` of the seven entries. -/
def sum7 (v : IV7) : Nat :=
  v.d0 + v.d1 + v.d2 + v.d3 + v.d4 + v.d5 + v.d6

/-- The statistics loop: running minimum, seeded with `iv7Data[0]`. -/
def min7 (v : IV7) : Nat :=
  (((((v.d0.min v.d1).min v.d2).min v.d3).min v.d4).min v.d5).min v.d6

/-- The statistics loop: running maximum, seeded with `iv7Data[0]`. -/
def max7 (v : IV7) : Nat :=
  (((((v.d0.max v.d1).max v.d2).max v.d3).max v.d4).max v.d5).max v.d6

/-- `mean = sum / 7` with truncating `uint256` division. -/
def mean7 (v : IV7) : Nat := sum7 v / 7

/-- `range = max - min`. -/
def range7 (v : IV7) : Nat := max7 v - min7 v

/-- The conditional absolute difference pattern
`a > b ? a - b : b - a` used for deviations and alternations. -/
def adiff (a b : Nat) : Nat := if a > b then a - b else b - a

/-- The variance loop: `varianceSum += diff * diff` over the seven
deviations from the (truncated) mean. -/
def varianceSum7 (v : IV7) : Nat :=
  adiff v.d0 (mean7 v) * adiff v.d0 (mean7 v) +
  adiff v.d1 (mean7 v) * adiff v.d1 (mean7 v) +
  adiff v.d2 (mean7 v) * adiff v.d2 (mean7 v) +
  adiff v.d3 (mean7 v) * adiff v.d3 (mean7 v) +
  adiff v.d4 (mean7 v) * adiff v.d4 (mean7 v) +
  adiff v.d5 (mean7 v) * adiff v.d5 (mean7 v) +
  adiff v.d6 (mean7 v) * adiff v.d6 (mean7 v)

/-- `variance = varianceSum / 7` with truncating `uint256` division. -/
def variance7 (v : IV7) : Nat := varianceSum7 v / 7

/-- The monotonicity loop leaves `isIncreasing` set exactly when no
adjacent pair strictly decreases. -/
@[reducible] def isIncreasing (v : IV7) : Prop :=
  v.d0 ≤ v.d1 ∧ v.d1 ≤ v.d2 ∧ v.d2 ≤ v.d3 ∧ v.d3 ≤ v.d4 ∧ v.d4 ≤ v.d5 ∧ v.d5 ≤ v.d6

/-- The monotonicity loop leaves `isDecreasing` set exactly when no
adjacent pair strictly increases. -/
@[reducible] def isDecreasing (v : IV7) : Prop :=
  v.d1 ≤ v.d0 ∧ v.d2 ≤ v.d1 ∧ v.d3 ≤ v.d2 ∧ v.d4 ≤ v.d3 ∧ v.d5 ≤ v.d4 ∧ v.d6 ≤ v.d5

/-- The nested uniqueness loop counts each entry that differs from every
earlier entry (entries equal to an earlier one are marked `counted`). -/
def uniqueCount7 (v : IV7) : Nat :=
  1 +
  (if v.d1 = v.d0 then 0 else 1) +
  (if v.d2 = v.d0 ∨ v.d2 = v.d1 then 0 else 1) +
  (if v.d3 = v.d0 ∨ v.d3 = v.d1 ∨ v.d3 = v.d2 then 0 else 1) +
  (if v.d4 = v.d0 ∨ v.d4 = v.d1 ∨ v.d4 = v.d2 ∨ v.d4 = v.d3 then 0 else 1) +
  (if v.d5 = v.d0 ∨ v.d5 = v.d1 ∨ v.d5 = v.d2 ∨ v.d5 = v.d3 ∨ v.d5 = v.d4 then 0 else 1) +
  (if v.d6 = v.d0 ∨ v.d6 = v.d1 ∨ v.d6 = v.d2 ∨ v.d6 = v.d3 ∨ v.d6 = v.d4 ∨ v.d6 = v.d5
   then 0 else 1)

/-- The alternation loop counts adjacent pairs whose absolute difference
exceeds 1500 (1.5 × 1000). -/
def alternations7 (v : IV7) : Nat :=
  (if adiff v.d0 v.d1 > 1500 then 1 else 0) +
  (if adiff v.d1 v.d2 > 1500 then 1 else 0) +
  (if adiff v.d2 v.d3 > 1500 then 1 else 0) +
  (if adiff v.d3 v.d4 > 1500 then 1 else 0) +
  (if adiff v.d4 v.d5 > 1500 then 1 else 0) +
  (if adiff v.d5 v.d6 > 1500 then 1 else 0)

/-- `validateIV7Data` of the contract: the six checks in source order,
each short-circuiting with its reason string. -/
def validateIV7Data (v : IV7) : Bool × String :=
  if outOfRange v then (false, "Value outside valid range")
  else if range7 v > MAX_RANGE then (false, "Value range too wide")
  else if variance7 v < MIN_VARIANCE then (false, "Variance too low - values too similar")
  else if variance7 v > MAX_VARIANCE then (false, "Variance too high - values too scattered")
  else if isIncreasing v then (false, "Monotonic increasing pattern detected")
  else if isDecreasing v then (false, "Monotonic decreasing pattern detected")
  else if uniqueCount7 v < MIN_UNIQUE_VALUES then (false, "Too many duplicate values")
  else if alternations7 v > MAX_ALTERNATIONS then (false, "Too many extreme value alternations")
  else (true, "")

/-- The valid test vector `generateFake7DVoiceprint()` of the test script. -/
def goodVec : IV7 := ⟨1000, 1020, 980, 1015, 985, 1025, 990⟩

/-- The out-of-range test vector `generateBadVoiceprint()` of the test script. -/
def badVec : IV7 := ⟨50, 3500, 10, 4000, 80, 5000, 30⟩

/-- The monotonic test vector `generateMonotonicVoiceprint()` of the test script. -/
def monoVec : IV7 := ⟨100, 200, 300, 400, 500, 600, 700⟩

/-- The stored `IVRecord` struct of the contract. -/
structure IVRecord where
  identity : String
  pubkey : Nat
  ivHash : Nat
  iv7Data : IV7
  timestamp : Nat
  blockNumber : Nat
  isValid : Bool

/-- The EVM zero value of `IVRecord`, returned by the `ivRecords`
mapping for keys never written. -/
def defaultIVRecord : IVRecord :=
  { identity := "", pubkey := 0, ivHash := 0, iv7Data := ⟨0, 0, 0, 0, 0, 0, 0⟩,
    timestamp := 0, blockNumber := 0, isValid := false }

/-- The submitted `IVReport` struct. -/
structure IVReport where
  identity : String
  pubkey : Nat
  ivHash : Nat
  iv7Data : IV7
  timestamp : Nat

/-- The contract's storage. -/
structure ContractState where
  oracleSigner : Nat
  maxStaleness : Nat
  usedIvHash : Nat → Bool
  ivRecords : Nat → IVRecord
  userRecords : Nat → List Nat
  totalRecords : Nat
  allRecords : List Nat

/-- Blockchain context of a call, with the two cryptographic externals
abstracted: `recover` is `ECDSA.recover` applied to the EIP-712 digest of
the report, `mkTxId` is `keccak256(abi.encodePacked(ivHash, block.number,
block.timestamp, msg.sender))`. -/
structure Env where
  blockTimestamp : Nat
  blockNumber : Nat
  msgSender : Nat
  recover : IVReport → Nat → Nat
  mkTxId : Nat → Nat → Nat → Nat → Nat

/-- Constructor state: `oracleSigner = _signer`, `maxStaleness` is
10 minutes, every mapping at its zero value. -/
def initialState (signer : Nat) : ContractState :=
  { oracleSigner := signer
    maxStaleness := 600
    usedIvHash := fun _ => false
    ivRecords := fun _ => defaultIVRecord
    userRecords := fun _ => []
    totalRecords := 0
    allRecords := [] }

/-- `verifyAndStore` of the contract: freshness `require`, duplicate
`require`, `validateIV7Data`, signature `require`, then the storage
writes, in source order.  Reverts are modelled as `Except.error` with
the revert string. -/
def verifyAndStore (env : Env) (st : ContractState) (report : IVReport) (sig : Nat) :
    Except String (Nat × ContractState) :=
  if ¬ (report.timestamp ≤ env.blockTimestamp ∧
        env.blockTimestamp - report.timestamp ≤ st.maxStaleness) then
    Except.error ("Report too stale")
  else if st.usedIvHash report.ivHash then
    Except.error ("IV hash already used")
  else if (validateIV7Data report.iv7Data).1 = false then
    Except.error ("Validation failed: " ++ (validateIV7Data report.iv7Data).2)
  else if ¬ (env.recover report sig = st.oracleSigner) then
    Except.error ("Invalid oracle signature")
  else
    Except.ok (env.mkTxId report.ivHash env.blockNumber env.blockTimestamp env.msgSender,
      { st with
        usedIvHash := fun h => if h = report.ivHash then true else st.usedIvHash h
        ivRecords := fun t =>
          if t = env.mkTxId report.ivHash env.blockNumber env.blockTimestamp env.msgSender then
            { identity := report.identity, pubkey := report.pubkey, ivHash := report.ivHash,
              iv7Data := report.iv7Data, timestamp := report.timestamp,
              blockNumber := env.blockNumber, isValid := true }
          else st.ivRecords t
        userRecords := fun a =>
          if a = env.msgSender then
            st.userRecords a ++
              [env.mkTxId report.ivHash env.blockNumber env.blockTimestamp env.msgSender]
          else st.userRecords a
        totalRecords := st.totalRecords + 1
        allRecords := st.allRecords ++
          [env.mkTxId report.ivHash env.blockNumber env.blockTimestamp env.msgSender] })

/-- The `verifyChainIntegrity` loop: the number of stored records along
`allRecords` whose `iv7Data` fails re-validation. -/
def countInvalid (st : ContractState) : List Nat → Nat
  | [] => 0
  | t :: ts =>
      (if (validateIV7Data (st.ivRecords t).iv7Data).1 then 0 else 1) + countInvalid st ts

/-- `verifyChainIntegrity` of the contract: re-validates every stored
record and reports the count of invalid ones. -/
def verifyChainIntegrity (st : ContractState) : Bool × Nat × String :=
  if countInvalid st st.allRecords > 0 then
    (false, countInvalid st st.allRecords, "Invalid voiceprints detected in chain")
  else
    (true, 0, "All voiceprints valid")

/-- `getRecord` of the contract: a plain mapping lookup. -/
def getRecord (st : ContractState) (txId : Nat) : IVRecord := st.ivRecords txId

/-- Zero or more successful `verifyAndStore` calls. -/
inductive Steps : ContractState → ContractState → Prop where
  | refl (st : ContractState) : Steps st st
  | tail {st₁ st₂ st₃ : ContractState} {env : Env} {r : IVReport} {sig txId : Nat}
      (hs : Steps st₁ st₂)
      (hok : verifyAndStore env st₂ r sig = Except.ok (txId, st₃)) :
      Steps st₁ st₃

/-- States reachable from the constructor state by successful
`verifyAndStore` calls (no out-of-band storage corruption). -/
def Reachable (st : ContractState) : Prop :=
  ∃ signer : Nat, Steps (initialState signer) st

/-- Every transaction id listed in `allRecords` maps to a record whose
stored vector passes `validateIV7Data`. -/
def RecordsValid (st : ContractState) : Prop :=
  ∀ t ∈ st.allRecords, (validateIV7Data (st.ivRecords t).iv7Data).1 = true

/-- Transaction ids not listed in `allRecords` still map to the zero
record. -/
def UnstoredDefault (st : ContractState) : Prop :=
  ∀ t, t ∉ st.allRecords → st.ivRecords t = defaultIVRecord

/-- A call context in which the oracle signature checks out (`recover`
returns signer 1) and the generated transaction id is 99. -/
def env0 : Env :=
  { blockTimestamp := 1000, blockNumber := 3, msgSender := 7,
    recover := fun _ _ => 1, mkTxId := fun _ _ _ _ => 99 }

/-- A fresh, validly signed report carrying the accepted test vector. -/
def r0 : IVReport :=
  { identity := "alice", pubkey := 2, ivHash := 5, iv7Data := goodVec, timestamp := 1000 }

/-- The storage after `verifyAndStore env0 (initialState 1) r0 0`. -/
def st1 : ContractState :=
  match verifyAndStore env0 (initialState 1) r0 0 with
  | Except.ok p => p.2
  | Except.error _ => initialState 1

/-- The same chain 4000 seconds later: far beyond `maxStaleness`. -/
def envStale : Env := { env0 with blockTimestamp := 5000 }

/-- A resubmission of `r0`'s `ivHash` under another identity, now stale. -/
def r1 : IVReport := { r0 with identity := "bob" }

/-- A later, fresh resubmission of `r0`'s `ivHash` with every other
field changed (identity, timestamp, even a statistically invalid
vector). -/
def envNext : Env := { env0 with blockTimestamp := 1200 }

/-- See `envNext`. -/
def r2 : IVReport := { r0 with identity := "carol", timestamp := 1100, iv7Data := badVec }

/-- A call context whose recovered signer (999) is not the oracle
signer. -/
def envBadSig : Env := { env0 with recover := fun _ _ => 999 }

/-- A fresh report with a statistically invalid vector. -/
def rBad : IVReport :=
  { identity := "mallory", pubkey := 2, ivHash := 6, iv7Data := badVec, timestamp := 1000 }

/-- A stored record with `ivHash` 111, unrelated to any other record. -/
def recA : IVRecord :=
  { identity := "a", pubkey := 1, ivHash := 111, iv7Data := goodVec, timestamp := 10,
    blockNumber := 1, isValid := true }

/-- A second stored record with `ivHash` 222: no field of it references
any digest of `recA`. -/
def recB : IVRecord :=
  { identity := "b", pubkey := 2, ivHash := 222, iv7Data := goodVec, timestamp := 20,
    blockNumber := 2, isValid := true }

/-- A two-record ledger holding `recA` and `recB`. -/
def stA : ContractState :=
  { oracleSigner := 1, maxStaleness := 600,
    usedIvHash := fun h => h == 111 || h == 222,
    ivRecords := fun t => if t = 1 then recA else if t = 2 then recB else defaultIVRecord,
    userRecords := fun _ => [1, 2],
    totalRecords := 2,
    allRecords := [1, 2] }

/-- The same two-record ledger with both records' `ivHash` fields
replaced by arbitrary unrelated values. -/
def stB : ContractState :=
  { stA with
    usedIvHash := fun h => h == 999 || h == 0,
    ivRecords := fun t =>
      if t = 1 then { recA with ivHash := 999 } else
      if t = 2 then { recB with ivHash := 0 } else defaultIVRecord }

/-- C6: `validateIV7Data` applied to `[1000,1020,980,1015,985,1025,990]`
returns accepted with an empty reason: the vector passes range, spread,
variance, monotonicity, uniqueness and alternation checks. -/
theorem valid_vector_accepted : validateIV7Data goodVec = (true, "") := by decide

/-- C7: any 7-vector with an element strictly below 10 or strictly above
3000 is rejected with the out-of-range reason; the range check runs
first, so no other reason is ever reported for such a vector. -/
theorem out_of_range_rejected_first (v : IV7) (h : outOfRange v) :
    validateIV7Data v = (false, "Value outside valid range") := by
  unfold validateIV7Data
  rw [if_pos h]

/-- Witness for C7 at the test script's bad-range vector. -/
theorem out_of_range_rejected_first_witness :
    outOfRange badVec ∧ validateIV7Data badVec = (false, "Value outside valid range") :=
  ⟨by decide, out_of_range_rejected_first badVec (by decide)⟩

/-- C4: for a vector that passes the range and spread checks, the
variance check (on the scaled integers, thresholds `MIN_VARIANCE = 50`
and `MAX_VARIANCE = 1200`, the spec's 0.05 and 1.2 units) accepts
exactly the variances in `[MIN_VARIANCE, MAX_VARIANCE]`: below, the
vector is rejected with the variance-too-low reason; above, with the
variance-too-high reason; inside, neither variance reason is reported. -/
theorem variance_check_characterization (v : IV7)
    (hr : ¬ outOfRange v) (hs : range7 v ≤ MAX_RANGE) :
    (variance7 v < MIN_VARIANCE →
      validateIV7Data v = (false, "Variance too low - values too similar")) ∧
    (variance7 v > MAX_VARIANCE →
      validateIV7Data v = (false, "Variance too high - values too scattered")) ∧
    (MIN_VARIANCE ≤ variance7 v ∧ variance7 v ≤ MAX_VARIANCE →
      validateIV7Data v ≠ (false, "Variance too low - values too similar") ∧
      validateIV7Data v ≠ (false, "Variance too high - values too scattered")) := by
  refine ⟨?_, ?_, ?_⟩
  · intro hlow
    unfold validateIV7Data
    rw [if_neg hr, if_neg (by omega : ¬ range7 v > MAX_RANGE), if_pos hlow]
  · intro hhigh
    unfold validateIV7Data
    simp only [MIN_VARIANCE, MAX_VARIANCE, MAX_RANGE] at hhigh hs ⊢
    rw [if_neg hr, if_neg (by omega : ¬ range7 v > 2500),
      if_neg (by omega : ¬ variance7 v < 50), if_pos hhigh]
  · rintro ⟨h1, h2⟩
    unfold validateIV7Data
    rw [if_neg hr, if_neg (by omega : ¬ range7 v > MAX_RANGE),
      if_neg (by omega : ¬ variance7 v < MIN_VARIANCE),
      if_neg (by omega : ¬ variance7 v > MAX_VARIANCE)]
    constructor <;> (split_ifs <;> decide)

/-- Witness for C4 at the accepted test vector, whose scaled variance is
277. -/
theorem variance_check_characterization_witness :
    (¬ outOfRange goodVec ∧ range7 goodVec ≤ MAX_RANGE) ∧
    ((variance7 goodVec < MIN_VARIANCE →
      validateIV7Data goodVec = (false, "Variance too low - values too similar")) ∧
    (variance7 goodVec > MAX_VARIANCE →
      validateIV7Data goodVec = (false, "Variance too high - values too scattered")) ∧
    (MIN_VARIANCE ≤ variance7 goodVec ∧ variance7 goodVec ≤ MAX_VARIANCE →
      validateIV7Data goodVec ≠ (false, "Variance too low - values too similar") ∧
      validateIV7Data goodVec ≠ (false, "Variance too high - values too scattered"))) :=
  ⟨⟨by decide, by decide⟩,
    variance_check_characterization goodVec (by decide) (by decide)⟩

/-- C5: any in-range, in-spread vector whose variance exceeds
`MAX_VARIANCE` is rejected with the variance-too-high reason — never with
a monotonic-pattern reason — because the variance check short-circuits
before the monotonicity check. -/
theorem high_variance_reported_before_monotonic (v : IV7)
    (hr : ¬ outOfRange v) (hs : range7 v ≤ MAX_RANGE)
    (hv : variance7 v > MAX_VARIANCE) :
    validateIV7Data v = (false, "Variance too high - values too scattered") ∧
    validateIV7Data v ≠ (false, "Monotonic increasing pattern detected") ∧
    validateIV7Data v ≠ (false, "Monotonic decreasing pattern detected") := by
  have heq : validateIV7Data v = (false, "Variance too high - values too scattered") := by
    unfold validateIV7Data
    simp only [MIN_VARIANCE, MAX_VARIANCE, MAX_RANGE] at hv hs ⊢
    rw [if_neg hr, if_neg (by omega : ¬ range7 v > 2500),
      if_neg (by omega : ¬ variance7 v < 50), if_pos hv]
  refine ⟨heq, ?_, ?_⟩ <;> (rw [heq]; decide)

/-- Witness for C5 at the strictly monotonic test vector
`[100,200,300,400,500,600,700]` (scaled variance 40000): the reported
reason is the variance one although the vector is monotonic. -/
theorem high_variance_reported_before_monotonic_witness :
    (¬ outOfRange monoVec ∧ range7 monoVec ≤ MAX_RANGE ∧
      variance7 monoVec > MAX_VARIANCE ∧ isIncreasing monoVec) ∧
    (validateIV7Data monoVec = (false, "Variance too high - values too scattered") ∧
     validateIV7Data monoVec ≠ (false, "Monotonic increasing pattern detected") ∧
     validateIV7Data monoVec ≠ (false, "Monotonic decreasing pattern detected")) :=
  ⟨⟨by decide, by decide, by decide, by decide⟩,
    high_variance_reported_before_monotonic monoVec (by decide) (by decide) (by decide)⟩

/-- Triangle bound for the conditional absolute difference. -/
theorem adiff_triangle (a b m : Nat) (ha : adiff a m ≤ 91) (hb : adiff b m ≤ 91) :
    adiff a b ≤ 182 := by
  unfold adiff at ha hb ⊢
  split at ha <;> split at hb <;> split <;> omega

/-- A square bounded by 8406 has root at most 91. -/
theorem le_91_of_sq_le (d : Nat) (hd : d * d ≤ 8406) : d ≤ 91 := by
  by_contra hc
  have h92 : 92 ≤ d := by omega
  have := Nat.mul_le_mul h92 h92
  omega

/-- A variance at most `MAX_VARIANCE` forces every deviation from the
mean below 92, hence every adjacent difference below 183, so the
alternation counter stays at zero. -/
theorem variance_bounds_alternations (v : IV7) (h : variance7 v ≤ 1200) :
    alternations7 v = 0 := by
  have hsum : varianceSum7 v ≤ 8406 := by
    unfold variance7 at h
    omega
  unfold varianceSum7 at hsum
  have b0 : adiff v.d0 (mean7 v) ≤ 91 := le_91_of_sq_le _ (by omega)
  have b1 : adiff v.d1 (mean7 v) ≤ 91 := le_91_of_sq_le _ (by omega)
  have b2 : adiff v.d2 (mean7 v) ≤ 91 := le_91_of_sq_le _ (by omega)
  have b3 : adiff v.d3 (mean7 v) ≤ 91 := le_91_of_sq_le _ (by omega)
  have b4 : adiff v.d4 (mean7 v) ≤ 91 := le_91_of_sq_le _ (by omega)
  have b5 : adiff v.d5 (mean7 v) ≤ 91 := le_91_of_sq_le _ (by omega)
  have b6 : adiff v.d6 (mean7 v) ≤ 91 := le_91_of_sq_le _ (by omega)
  have e01 : adiff v.d0 v.d1 ≤ 182 := adiff_triangle _ _ _ b0 b1
  have e12 : adiff v.d1 v.d2 ≤ 182 := adiff_triangle _ _ _ b1 b2
  have e23 : adiff v.d2 v.d3 ≤ 182 := adiff_triangle _ _ _ b2 b3
  have e34 : adiff v.d3 v.d4 ≤ 182 := adiff_triangle _ _ _ b3 b4
  have e45 : adiff v.d4 v.d5 ≤ 182 := adiff_triangle _ _ _ b4 b5
  have e56 : adiff v.d5 v.d6 ≤ 182 := adiff_triangle _ _ _ b5 b6
  unfold alternations7
  rw [if_neg (by omega : ¬ adiff v.d0 v.d1 > 1500),
    if_neg (by omega : ¬ adiff v.d1 v.d2 > 1500),
    if_neg (by omega : ¬ adiff v.d2 v.d3 > 1500),
    if_neg (by omega : ¬ adiff v.d3 v.d4 > 1500),
    if_neg (by omega : ¬ adiff v.d4 v.d5 > 1500),
    if_neg (by omega : ¬ adiff v.d5 v.d6 > 1500)]

/-- C10: `validateIV7Data` never reports the too-many-alternations
reason: a vector reaching the alternation check has variance at most
`MAX_VARIANCE = 1200`, which bounds each deviation from the mean by 91
and each adjacent difference by 182, so no difference can exceed 1500
and the rejection branch is unreachable. -/
theorem alternation_reason_unreachable (v : IV7) :
    validateIV7Data v ≠ (false, "Too many extreme value alternations") := by
  intro h
  unfold validateIV7Data at h
  split_ifs at h with h1 h2 h3 h4 h5 h6 h7 h8
  all_goals try exact absurd h (by decide)
  have h0 : alternations7 v = 0 := by
    apply variance_bounds_alternations
    simp only [MAX_VARIANCE] at h4
    omega
  simp only [MAX_ALTERNATIONS] at h8
  omega

/-- Inversion of a successful `verifyAndStore` call: validation passed
and the storage writes are exactly the source's. -/
theorem verifyAndStore_ok_facts {env : Env} {st : ContractState} {report : IVReport}
    {sig txId : Nat} {st' : ContractState}
    (h : verifyAndStore env st report sig = Except.ok (txId, st')) :
    (validateIV7Data report.iv7Data).1 = true ∧
    st'.allRecords = st.allRecords ++ [txId] ∧
    (st'.ivRecords txId).iv7Data = report.iv7Data ∧
    (∀ t, t ≠ txId → st'.ivRecords t = st.ivRecords t) ∧
    (∀ h2 : Nat, st'.usedIvHash h2 = if h2 = report.ivHash then true else st.usedIvHash h2) ∧
    st'.maxStaleness = st.maxStaleness := by
  unfold verifyAndStore at h
  split_ifs at h with h1 h2 h3 h4
  injection h with hp
  injection hp with ht hs
  subst ht
  subst hs
  simp only [Bool.not_eq_false] at h3
  refine ⟨h3, rfl, by simp, fun t hne => by simp [hne], fun h2 => rfl, rfl⟩

/-- A successful `verifyAndStore` call preserves `RecordsValid`:
only validated data is stored. -/
theorem recordsValid_step {env : Env} {st : ContractState} {report : IVReport}
    {sig txId : Nat} {st' : ContractState}
    (hok : verifyAndStore env st report sig = Except.ok (txId, st'))
    (hv : RecordsValid st) : RecordsValid st' := by
  obtain ⟨hval, hall, hnew, hold, -, -⟩ := verifyAndStore_ok_facts hok
  intro t ht
  rw [hall, List.mem_append] at ht
  rcases ht with h1 | h1
  · by_cases he : t = txId
    · subst he; rw [hnew]; exact hval
    · rw [hold t he]; exact hv t h1
  · have he : t = txId := by simpa using h1
    subst he; rw [hnew]; exact hval

/-- A successful `verifyAndStore` call preserves `UnstoredDefault`:
the only mapping entry written is the one listed. -/
theorem unstoredDefault_step {env : Env} {st : ContractState} {report : IVReport}
    {sig txId : Nat} {st' : ContractState}
    (hok : verifyAndStore env st report sig = Except.ok (txId, st'))
    (hP : UnstoredDefault st) : UnstoredDefault st' := by
  obtain ⟨-, hall, -, hold, -, -⟩ := verifyAndStore_ok_facts hok
  intro t ht
  rw [hall, List.mem_append] at ht
  push_neg at ht
  rw [hold t (by simpa using ht.2)]
  exact hP t ht.1

/-- `RecordsValid` along any sequence of successful calls. -/
theorem steps_recordsValid {st₁ st₂ : ContractState} (h : Steps st₁ st₂)
    (hv : RecordsValid st₁) : RecordsValid st₂ := by
  induction h with
  | refl => exact hv
  | tail hs hok ih => exact recordsValid_step hok ih

/-- `UnstoredDefault` along any sequence of successful calls. -/
theorem steps_unstoredDefault {st₁ st₂ : ContractState} (h : Steps st₁ st₂)
    (hP : UnstoredDefault st₁) : UnstoredDefault st₂ := by
  induction h with
  | refl => exact hP
  | tail hs hok ih => exact unstoredDefault_step hok ih

/-- The `usedIvHash` mapping is only ever set, never cleared. -/
theorem usedIvHash_mono {st₁ st₂ : ContractState} {h : Nat} (hs : Steps st₁ st₂)
    (hu : st₁.usedIvHash h = true) : st₂.usedIvHash h = true := by
  induction hs with
  | refl => exact hu
  | tail hsteps hok ih =>
      obtain ⟨-, -, -, -, hupd, -⟩ := verifyAndStore_ok_facts hok
      rw [hupd h]
      split
      · rfl
      · exact ih

/-- If every listed record re-validates, the invalid counter is zero. -/
theorem countInvalid_zero (st : ContractState) (l : List Nat)
    (h : ∀ t ∈ l, (validateIV7Data (st.ivRecords t).iv7Data).1 = true) :
    countInvalid st l = 0 := by
  induction l with
  | nil => rfl
  | cons x xs ih =>
      unfold countInvalid
      rw [if_pos (h x (List.mem_cons_self x xs)),
        ih (fun t ht => h t (List.mem_cons_of_mem x ht))]

/-- C9: from the empty (constructor) ledger, after any sequence of
successful `verifyAndStore` calls and no out-of-band corruption, every
stored record's `iv7Data` still passes `validateIV7Data` — an invariant
established by the validation gate inside `verifyAndStore` — and
`verifyChainIntegrity` returns `isValid = true`, `invalidCount = 0`. -/
theorem reachable_chain_integrity (st : ContractState) (h : Reachable st) :
    RecordsValid st ∧ verifyChainIntegrity st = (true, 0, "All voiceprints valid") := by
  obtain ⟨signer, hsteps⟩ := h
  have hv : RecordsValid st := by
    apply steps_recordsValid hsteps
    intro t ht
    simp [initialState] at ht
  refine ⟨hv, ?_⟩
  unfold verifyChainIntegrity
  rw [countInvalid_zero st st.allRecords hv]
  rfl

/-- The concrete call above succeeds and yields `st1`. -/
theorem st1_ok : verifyAndStore env0 (initialState 1) r0 0 = Except.ok (99, st1) := rfl

/-- C8 counterexample: after the successful call producing `st1`, a
resubmission of the same `ivHash` whose timestamp fails the freshness
window is rejected with the staleness error, not the duplicate error —
the freshness `require` runs before the duplicate check. -/
theorem duplicate_stale_counterexample :
    verifyAndStore env0 (initialState 1) r0 0 = Except.ok (99, st1) ∧
    st1.usedIvHash r1.ivHash = true ∧
    r1.ivHash = r0.ivHash ∧
    verifyAndStore envStale st1 r1 0 = Except.error ("Report too stale") ∧
    verifyAndStore envStale st1 r1 0 ≠ Except.error ("IV hash already used") := by
  refine ⟨rfl, rfl, rfl, rfl, ?_⟩
  intro hcontra
  exact absurd (Except.error.inj ((rfl :
    verifyAndStore envStale st1 r1 0 = Except.error ("Report too stale")).symm.trans hcontra))
    (by decide)

/-- C8 (amended): once a `verifyAndStore` call with some `ivHash` has
succeeded, every subsequent `verifyAndStore` call whose report carries
the same `ivHash` and passes the freshness check fails with the
duplicate error, regardless of any changes to the report's other fields
or signature; a report failing the freshness check is rejected with the
staleness error instead, since freshness is checked first. -/
theorem duplicate_rejected_when_fresh (env : Env) (st : ContractState) (r : IVReport)
    (sig txId : Nat) (st' st'' : ContractState) (env' : Env) (r' : IVReport) (sig' : Nat)
    (hok : verifyAndStore env st r sig = Except.ok (txId, st'))
    (hsteps : Steps st' st'')
    (hhash : r'.ivHash = r.ivHash)
    (hts : r'.timestamp ≤ env'.blockTimestamp)
    (hfresh : env'.blockTimestamp - r'.timestamp ≤ st''.maxStaleness) :
    verifyAndStore env' st'' r' sig' = Except.error ("IV hash already used") := by
  have hused : st''.usedIvHash r'.ivHash = true := by
    rw [hhash]
    apply usedIvHash_mono hsteps
    obtain ⟨-, -, -, -, hupd, -⟩ := verifyAndStore_ok_facts hok
    rw [hupd]
    simp
  unfold verifyAndStore
  rw [if_neg (fun hc => hc ⟨hts, hfresh⟩), if_pos hused]

/-- Witness for C8: the fresh resubmission `r2` of `r0`'s `ivHash` (all
other fields changed) is rejected as a duplicate. -/
theorem duplicate_rejected_when_fresh_witness :
    verifyAndStore envNext st1 r2 0 = Except.error ("IV hash already used") :=
  duplicate_rejected_when_fresh env0 (initialState 1) r0 0 99 st1 st1 envNext r2 0
    st1_ok (Steps.refl st1) rfl (by decide) (by decide)

/-- C2 counterexample: a report whose signature is invalid (recovered
signer 999 ≠ oracle signer 1) and whose vector is statistically invalid
is rejected with the validation error, not the invalid-signature error:
`verifyAndStore` runs the Validator before the signature check. -/
theorem signature_after_validation_counterexample :
    envBadSig.recover rBad 0 ≠ (initialState 1).oracleSigner ∧
    (validateIV7Data rBad.iv7Data).1 = false ∧
    verifyAndStore envBadSig (initialState 1) rBad 0 =
      Except.error ("Validation failed: Value outside valid range") ∧
    verifyAndStore envBadSig (initialState 1) rBad 0 ≠
      Except.error ("Invalid oracle signature") := by
  refine ⟨by decide, rfl, rfl, ?_⟩
  intro hcontra
  exact absurd (Except.error.inj ((rfl :
    verifyAndStore envBadSig (initialState 1) rBad 0 =
      Except.error ("Validation failed: Value outside valid range")).symm.trans hcontra))
    (by decide)

/-- C2 (amended): admission checks freshness and the duplicate check and
then the statistical Validator, and checks the oracle signature only
after validation succeeds: a submitted report that passes freshness and
duplicate checks but whose 7-vector is statistically invalid is rejected
with the validation-failed error carrying the Validator's reason, no
matter what signature is supplied — in particular even when the
signature is also invalid. -/
theorem invalid_data_rejected_before_signature (env : Env) (st : ContractState)
    (r : IVReport) (sig : Nat)
    (hts : r.timestamp ≤ env.blockTimestamp)
    (hfresh : env.blockTimestamp - r.timestamp ≤ st.maxStaleness)
    (hdup : st.usedIvHash r.ivHash = false)
    (hinv : (validateIV7Data r.iv7Data).1 = false) :
    verifyAndStore env st r sig =
      Except.error ("Validation failed: " ++ (validateIV7Data r.iv7Data).2) := by
  unfold verifyAndStore
  rw [if_neg (fun hc => hc ⟨hts, hfresh⟩), if_neg (by simp [hdup]), if_pos hinv]

/-- Witness for C2 at the invalidly signed, statistically invalid
report. -/
theorem invalid_data_rejected_before_signature_witness :
    verifyAndStore envBadSig (initialState 1) rBad 0 =
      Except.error ("Validation failed: " ++ (validateIV7Data rBad.iv7Data).2) :=
  invalid_data_rejected_before_signature envBadSig (initialState 1) rBad 0
    (by decide) (by decide) rfl rfl

/-- Witness for C9 at the reachable one-record state `st1`. -/
theorem reachable_chain_integrity_witness :
    RecordsValid st1 ∧ verifyChainIntegrity st1 = (true, 0, "All voiceprints valid") :=
  reachable_chain_integrity st1 ⟨1, Steps.tail (Steps.refl (initialState 1)) st1_ok⟩

/-- C3 counterexample: on the empty constructor ledger (no stored
transaction ids at all), the lookup at the absent id 42 does not fail
with a not-found error: `getRecord` is a total mapping read and returns
the zero-initialized record, whose `isValid` flag is false. -/
theorem getRecord_total_counterexample :
    (initialState 1).allRecords = [] ∧
    getRecord (initialState 1) 42 = defaultIVRecord ∧
    defaultIVRecord.isValid = false :=
  ⟨rfl, rfl, rfl⟩

/-- C3 (amended): for every transaction id not present in a reachable
ledger, `getRecord` returns the zero-initialized `IVRecord` (empty
identity, zero hashes, all-zero vector, `isValid = false`) rather than
failing with a not-found error. -/
theorem getRecord_absent_default (st : ContractState) (txId : Nat)
    (h : Reachable st) (hmem : txId ∉ st.allRecords) :
    getRecord st txId = defaultIVRecord := by
  obtain ⟨signer, hsteps⟩ := h
  exact steps_unstoredDefault hsteps (fun t _ => rfl) txId hmem

/-- Witness for C3 at the one-record state `st1` and the absent id 42. -/
theorem getRecord_absent_default_witness : getRecord st1 42 = defaultIVRecord :=
  getRecord_absent_default st1 42 ⟨1, Steps.tail (Steps.refl (initialState 1)) st1_ok⟩
    (by decide)

/-- The invalid-record counter only reads each record's `iv7Data`. -/
theorem countInvalid_congr (st st' : ContractState) (l : List Nat)
    (h : ∀ t ∈ l, (st.ivRecords t).iv7Data = (st'.ivRecords t).iv7Data) :
    countInvalid st l = countInvalid st' l := by
  induction l with
  | nil => rfl
  | cons x xs ih =>
      unfold countInvalid
      rw [h x (List.mem_cons_self x xs), ih (fun t ht => h t (List.mem_cons_of_mem x ht))]

/-- C1 counterexample: the stored records carry no predecessor hash and
the integrity verifier confirms no linkage: two-record ledgers whose
records' hash fields are mutually unrelated (`stA`) or arbitrarily
scrambled (`stB`) both pass `verifyChainIntegrity` with zero invalid
records. -/
theorem chain_linkage_counterexample :
    (stA.ivRecords 2).ivHash ≠ (stA.ivRecords 1).ivHash ∧
    (stB.ivRecords 1).ivHash ≠ (stA.ivRecords 1).ivHash ∧
    (stB.ivRecords 2).ivHash ≠ (stA.ivRecords 2).ivHash ∧
    verifyChainIntegrity stA = (true, 0, "All voiceprints valid") ∧
    verifyChainIntegrity stB = (true, 0, "All voiceprints valid") :=
  ⟨by decide, by decide, by decide, rfl, rfl⟩

/-- C1 (amended): the contract's records store no predecessor hash
(`IVRecord` has no `previous_hash` or `block_hash` field), and
`verifyChainIntegrity` performs no hash recomputation or linkage check:
walking `allRecords` in ascending order it only re-runs `validateIV7Data`
on each stored record's `iv7Data`, so its result depends only on the
stored vectors — two ledgers listing the same transaction ids whose
records agree on `iv7Data` verify identically, whatever their hash
fields hold. -/
theorem verifyChainIntegrity_ignores_hash_fields (st st' : ContractState)
    (hall : st.allRecords = st'.allRecords)
    (hiv : ∀ t ∈ st.allRecords, (st.ivRecords t).iv7Data = (st'.ivRecords t).iv7Data) :
    verifyChainIntegrity st = verifyChainIntegrity st' := by
  have hc : countInvalid st st.allRecords = countInvalid st' st.allRecords :=
    countInvalid_congr st st' st.allRecords hiv
  unfold verifyChainIntegrity
  rw [hc, hall]

/-- Witness for C1 at the hash-scrambled pair of ledgers. -/
theorem verifyChainIntegrity_ignores_hash_fields_witness :
    stA.allRecords = stB.allRecords ∧
    (∀ t ∈ stA.allRecords, (stA.ivRecords t).iv7Data = (stB.ivRecords t).iv7Data) ∧
    verifyChainIntegrity stA = verifyChainIntegrity stB :=
  ⟨rfl, by decide, verifyChainIntegrity_ignores_hash_fields stA stB rfl (by decide)⟩
